import Mathlib

/-!
Verification of the notification-dispatch engine of this repository
(notifier_base.py, telegram_notifier.py, discord_notifier.py,
cqhttp_notifier.py) against its natural-language specification.

The Python code is shallowly embedded: every definition below is a direct
translation of a function or loop of the source, with network calls
abstracted into oracles (a function giving the outcome of each attempt)
and the event order recorded as an explicit trace.  Strings are modelled
through their character lists so that the kernel can evaluate every
definition on concrete inputs.
-/

/-- Python `str.replace(pat, repl)`: replace every non-overlapping occurrence
of `pat`, scanning left to right and continuing after each replacement.
Fuel-based structural recursion so the kernel can evaluate it; fuel equal to
the length of the scanned list suffices whenever `pat` is non-empty, which is
the case at every call site in this development. -/
def replaceAux (pat repl : List Char) : Nat → List Char → List Char
  | _, [] => []
  | 0, l => l
  | fuel + 1, c :: rest =>
    if pat.isPrefixOf (c :: rest) then
      repl ++ replaceAux pat repl fuel (List.drop pat.length (c :: rest))
    else
      c :: replaceAux pat repl fuel rest

/-- Python `s.replace(pat, repl)` on `String`. -/
def pyReplace (s pat repl : String) : String :=
  String.mk (replaceAux pat.data repl.data s.data.length s.data)

/-- `_remove_http` from cqhttp_notifier.py: strip every `https://` and then
every `http://` occurrence from the text. -/
def remove_http (text : String) : String :=
  pyReplace (pyReplace text "https://" "") "http://" ""

/-- The `message` field posted by `CqhttpNotifier._send_text`: the text with
URL schemes stripped by `_remove_http`. -/
def cq_text_data (text : String) : String := remove_http text

/-- The `message` field posted by `CqhttpNotifier._send_photo`.  Note that in
the source the photo URL is interpolated verbatim; it is NOT passed through
`_remove_http`. -/
def cq_photo_data (photo_url : String) : String :=
  "[CQ:image,file=" ++ photo_url ++ "]"

/-- The `message` field posted by `CqhttpNotifier._send_video`; the URL is
likewise interpolated verbatim. -/
def cq_video_data (video_url : String) : String :=
  "[CQ:video,file=" ++ video_url ++ "]"

/-- The sequence of POST bodies `CqhttpNotifier.send_message` issues for one
target URL when no post faults: first `_send_text`, then one `_send_photo`
per photo in order, then one `_send_video` per video in order. -/
def cqhttp_target_posts (text : String) (photos videos : List String) : List String :=
  cq_text_data text :: (photos.map cq_photo_data ++ videos.map cq_video_data)

/-- One observable event of `NotifierBase._work` (notifier_base.py): the
worker flips the Status Registry entry of its backend, starts a
`send_message` call, sees it return or raise, and logs caught faults.
`M` is the type of message payloads. -/
inductive WEvent (M : Type) where
  | setStatus (healthy : Bool)
  | deliverBegin (m : M)
  | deliverRet (m : M)
  | deliverRaise (m : M)
  | logError
deriving DecidableEq

/-- The events one iteration of the `while True` loop of
`NotifierBase._work` produces for a dequeued message `m`, where `ok` records
whether `send_message` returns normally.  Mirrors the source exactly: the
registry entry is set to `False` before the call; it is set back to `True`
only on the success path, because the `except` branch merely prints/logs the
fault and performs no reset. -/
def workerStep {M : Type} (m : M) (ok : Bool) : List (WEvent M) :=
  if ok then
    [WEvent.setStatus false, WEvent.deliverBegin m, WEvent.deliverRet m,
     WEvent.setStatus true]
  else
    [WEvent.setStatus false, WEvent.deliverBegin m, WEvent.deliverRaise m,
     WEvent.logError]

/-- The full event trace of `NotifierBase._work` consuming the FIFO queue
contents `msgs` (each message paired with whether its `send_message` call
returns normally).  `asyncio.Queue` dequeues in arrival order, and the single
worker awaits each `send_message` to completion before the next `get`, so the
trace is the concatenation of the per-message blocks in queue order; the
`except Exception` clause means a raising message does not end the loop. -/
def workerTrace {M : Type} : List (M × Bool) → List (WEvent M)
  | [] => []
  | (m, ok) :: rest => workerStep m ok ++ workerTrace rest

/-- The messages on which `send_message` is invoked, in invocation order. -/
def delivers {M : Type} : List (WEvent M) → List M
  | [] => []
  | WEvent.deliverBegin m :: rest => m :: delivers rest
  | _ :: rest => delivers rest

/-- Checks that `send_message` invocations are properly bracketed and never
overlap: `n` is the number of invocations currently in flight, a new
invocation may begin only when none is in flight, and every invocation ends
(returns or raises) before anything else begins. -/
def wellNested {M : Type} : Nat → List (WEvent M) → Bool
  | _, [] => true
  | n, WEvent.deliverBegin _ :: rest => n == 0 && wellNested 1 rest
  | n, WEvent.deliverRet _ :: rest => n == 1 && wellNested 0 rest
  | n, WEvent.deliverRaise _ :: rest => n == 1 && wellNested 0 rest
  | n, _ :: rest => wellNested n rest

/-- The Status Registry entry of this backend after the trace, starting from
`init`'s value (`StatusTracker.set_notifier_status(name, True)` in
`NotifierBase.init`). -/
def statusAfter {M : Type} (s : Bool) : List (WEvent M) → Bool
  | [] => s
  | WEvent.setStatus b :: rest => statusAfter b rest
  | _ :: rest => statusAfter s rest

/-- Checks that every `send_message` event (begin, return and raise alike)
happens while the registry entry is `false`: the entry is busy for the full
duration of each delivery. -/
def busyCheck {M : Type} : Bool → List (WEvent M) → Bool
  | _, [] => true
  | _, WEvent.setStatus b :: rest => busyCheck b rest
  | s, WEvent.deliverBegin _ :: rest => !s && busyCheck s rest
  | s, WEvent.deliverRet _ :: rest => !s && busyCheck s rest
  | s, WEvent.deliverRaise _ :: rest => !s && busyCheck s rest
  | s, WEvent.logError :: rest => busyCheck s rest

/-- Checks that every raising `send_message` call is immediately followed by
the worker's log action and by nothing that ends the loop. -/
def faultsLogged {M : Type} : List (WEvent M) → Bool
  | [] => true
  | WEvent.deliverRaise _ :: WEvent.logError :: rest => faultsLogged rest
  | WEvent.deliverRaise _ :: _ => false
  | _ :: rest => faultsLogged rest

/-- Backend identity: the three `NotifierBase` subclasses of the source. -/
inductive Backend where
  | telegram
  | discord
  | cqhttp
deriving DecidableEq

/-- An envelope as it sits in `NotifierBase.message_queue`, tagged with the
backend through whose `put_message_into_queue` it was enqueued (equivalently,
the `Message` subclass it instantiates). -/
structure QueuedMsg where
  origin : Backend
  payload : Nat
deriving DecidableEq

/-- The dequeue behaviour of the source when several backends are
initialized.  In notifier_base.py, `message_queue` is a single class
attribute of `NotifierBase`; no subclass shadows it, so every backend's
`put_message_into_queue` and every backend's worker operate on the SAME
queue.  Each `init` starts one worker, and each `get()` wakes whichever
waiting worker the event loop chooses — `sched` records that choice per
queue position.  Worker `w` passes every message it dequeues to its own
`cls.send_message`. -/
def sharedQueueRun : List Backend → List QueuedMsg → List (Backend × QueuedMsg)
  | _, [] => []
  | [], _ => []
  | w :: ws, m :: ms => (w, m) :: sharedQueueRun ws ms

/-- The messages on which backend `w`'s `send_message` is invoked during a
shared-queue run, in invocation order. -/
def sendMessageCallsOf (w : Backend) (run : List (Backend × QueuedMsg)) :
    List QueuedMsg :=
  (run.filter (fun p => p.1 == w)).map Prod.snd

/-- Whether every `send_message` invocation in the run satisfies the
adapter's own `assert isinstance(message, ...)`: each adapter's
`send_message` asserts that the dequeued message is an instance of that
backend's own `Message` subclass. -/
def assertsHold (run : List (Backend × QueuedMsg)) : Bool :=
  run.all (fun p => p.2.origin == p.1)

theorem delivers_append {M : Type} (a b : List (WEvent M)) :
    delivers (a ++ b) = delivers a ++ delivers b := by
  induction a with
  | nil => rfl
  | cons e rest ih => cases e <;> simp [delivers, ih]

theorem delivers_workerStep {M : Type} (m : M) (ok : Bool) :
    delivers (workerStep m ok) = [m] := by
  cases ok <;> rfl

theorem statusAfter_append {M : Type} (s : Bool) (a b : List (WEvent M)) :
    statusAfter s (a ++ b) = statusAfter (statusAfter s a) b := by
  induction a generalizing s with
  | nil => rfl
  | cons e rest ih => cases e <;> simp [statusAfter, ih]

theorem statusAfter_workerStep {M : Type} (s : Bool) (m : M) (ok : Bool) :
    statusAfter s (workerStep m ok) = ok := by
  cases ok <;> rfl

theorem statusAfter_workerTrace {M : Type} (msgs : List (M × Bool)) (s : Bool) :
    statusAfter s (workerTrace msgs) = ((msgs.getLast?).map Prod.snd).getD s := by
  induction msgs generalizing s with
  | nil => rfl
  | cons p rest ih =>
    obtain ⟨m, b⟩ := p
    rw [workerTrace, statusAfter_append, statusAfter_workerStep]
    rw [ih b]
    cases rest with
    | nil => rfl
    | cons q qs =>
      rw [List.getLast?_cons_cons]
      obtain ⟨x, hx⟩ := Option.isSome_iff_exists.mp
        (List.getLast?_isSome.mpr (List.cons_ne_nil q qs))
      simp [hx]

theorem busyCheck_append {M : Type} (s : Bool) (a b : List (WEvent M)) :
    busyCheck s (a ++ b) = (busyCheck s a && busyCheck (statusAfter s a) b) := by
  induction a generalizing s with
  | nil => rfl
  | cons e rest ih => cases e <;> simp [busyCheck, statusAfter, ih, Bool.and_assoc]

theorem busyCheck_workerStep {M : Type} (s : Bool) (m : M) (ok : Bool) :
    busyCheck s (workerStep m ok) = true := by
  cases ok <;> rfl

theorem busyCheck_workerTrace {M : Type} (msgs : List (M × Bool)) (s : Bool) :
    busyCheck s (workerTrace msgs) = true := by
  induction msgs generalizing s with
  | nil => rfl
  | cons p rest ih =>
    obtain ⟨m, b⟩ := p
    rw [workerTrace, busyCheck_append, busyCheck_workerStep,
        statusAfter_workerStep, ih]
    rfl

/-- Within a single worker, delivery blocks are properly bracketed: no two
`send_message` invocations are ever in flight at once, because the worker
awaits each call to completion before the next `get()`. -/
theorem worker_wellNested {M : Type} (msgs : List (M × Bool)) :
    wellNested 0 (workerTrace msgs) = true := by
  induction msgs with
  | nil => rfl
  | cons p rest ih =>
    obtain ⟨m, b⟩ := p
    cases b <;> simpa [workerTrace, workerStep, wellNested] using ih

/-- C1: with more than one backend initialized, an envelope enqueued through
`TelegramNotifier.put_message_into_queue` can be dequeued by the Discord
worker, because `message_queue` is one shared class attribute of
`NotifierBase`.  Evaluated at the failing input (Telegram and Discord both
initialized, one Telegram envelope enqueued, the Discord worker is the waiter
that gets it): `TelegramNotifier.send_message` is invoked 0 times — the claim
requires exactly 1 — and the run violates the adapter's own
`assert isinstance` (the Discord worker receives a `TelegramMessage`). -/
theorem shared_queue_breaks_per_actor_delivery :
    sendMessageCallsOf Backend.telegram
        (sharedQueueRun [Backend.discord] [⟨Backend.telegram, 0⟩]) = [] ∧
    sendMessageCallsOf Backend.telegram
        (sharedQueueRun [Backend.discord] [⟨Backend.telegram, 0⟩]) ≠
      [⟨Backend.telegram, 0⟩] ∧
    assertsHold (sharedQueueRun [Backend.discord] [⟨Backend.telegram, 0⟩]) = false := by
  refine ⟨rfl, by decide, rfl⟩

/-- C3 counterexample: a single envelope whose `send_message` raises.  The
claim says the worker resets the registry entry to `true` after `deliver`
regardless of outcome, so the entry would be `true` after the trace; in the
source the `except` branch skips the reset, and the entry stays `false`. -/
theorem status_not_reset_after_fault_cex :
    statusAfter true (workerTrace [((0 : Nat), false)]) ≠ true := by
  decide

/-- C3 (amended): the worker sets the registry entry to `false` before every
`send_message` invocation, and the entry is `false` for the full duration of
every invocation (begin, return and raise all happen while it is `false`);
the entry is `true` immediately after `init` (the initial value below) and is
reset to `true` only when `send_message` returns without fault — after a
faulting delivery it remains `false` until the next successful delivery, so
after the whole trace it equals the outcome of the last delivery (or the
`init` value when nothing was dequeued). -/
theorem status_registry_behavior (msgs : List (Nat × Bool)) :
    statusAfter true (workerTrace msgs) =
      ((msgs.getLast?).map Prod.snd).getD true ∧
    busyCheck true (workerTrace msgs) = true := by
  exact ⟨statusAfter_workerTrace msgs true, busyCheck_workerTrace msgs true⟩

/-- C8: every fault `send_message` raises is caught inside the worker loop
and immediately logged (`faultsLogged`), and the worker goes on to invoke
`send_message` on every single queued envelope in queue order regardless of
earlier faults (`delivers` equals the full queue): one failed envelope never
stops the worker and never drops or skips later envelopes. -/
theorem worker_fault_isolation (msgs : List (Nat × Bool)) :
    delivers (workerTrace msgs) = msgs.map Prod.fst ∧
    faultsLogged (workerTrace msgs) = true := by
  constructor
  · induction msgs with
    | nil => rfl
    | cons p rest ih =>
      obtain ⟨m, b⟩ := p
      rw [workerTrace, delivers_append, delivers_workerStep]
      simp [ih]
  · induction msgs with
    | nil => rfl
    | cons p rest ih =>
      obtain ⟨m, b⟩ := p
      cases b <;> simpa [workerTrace, workerStep, faultsLogged] using ih

/-- Outcome of one underlying bot-API attempt inside
`TelegramNotifier._retry`: the call returns normally, raises one of the
transient errors (`RetryAfter`, `TimedOut`, `NetworkError`) that `_retry`'s
`except` clause catches, or raises `telegram.error.BadRequest`, which
`_retry` does not catch. -/
inductive AttemptRes where
  | ok
  | transient
  | badReq
deriving DecidableEq

/-- How a `_retry` invocation ends: the wrapped call returned, a
`BadRequest` escaped, or the loop ran out of tries and
`RuntimeError("Max retries exceeded.")` was raised. -/
inductive RetryResult where
  | success
  | badRequest
  | exhausted
deriving DecidableEq

/-- `TelegramNotifier._retry` (default `tries=5`, fixed `delay`): attempt
the wrapped call up to `fuel` times starting at attempt index `i`.  A
transient fault is logged and followed by one fixed-length
`asyncio.sleep(delay)` — including after the last attempt — then retried;
`BadRequest` propagates at once; when the loop ends without returning,
`RuntimeError` is raised.  Returns (outcome, number of underlying attempts,
number of fixed-delay sleeps). -/
def retryRun (f : Nat → AttemptRes) : Nat → Nat → RetryResult × Nat × Nat
  | _, 0 => (RetryResult.exhausted, 0, 0)
  | i, fuel + 1 =>
    match f i with
    | AttemptRes.ok => (RetryResult.success, 1, 0)
    | AttemptRes.badReq => (RetryResult.badRequest, 1, 0)
    | AttemptRes.transient =>
      let r := retryRun f (i + 1) fuel
      (r.1, r.2.1 + 1, r.2.2 + 1)

/-- One item of a Telegram media group (`InputMediaPhoto`). -/
structure MediaItem where
  media : String
  caption : Option String
deriving DecidableEq

/-- The single underlying bot-API call
`TelegramNotifier._send_message_to_single_chat` performs (inside `_retry`)
for a given envelope content. -/
inductive TgCall where
  | sendVideo (video : String) (caption : String)
  | sendPhoto (photo : String) (caption : String)
  | sendMediaGroup (media : List MediaItem)
  | sendMessage (text : String)
deriving DecidableEq

/-- `TelegramNotifier._send_message_to_single_chat`: a non-empty video list
sends the FIRST video with the text as caption; otherwise exactly one photo
is a direct `send_photo` with the text as caption; otherwise two or more
photos are one `send_media_group` built from
`InputMediaPhoto(photo_url_list[0], caption=text)` followed by
`photo_url_list[1:10]` without captions; otherwise a plain `send_message`.
Python truthiness makes `None` and `[]` media lists coincide, so both are
modelled by `[]`. -/
def send_message_to_single_chat (text : String) (photos videos : List String) :
    TgCall :=
  match videos with
  | v :: _ => TgCall.sendVideo v text
  | [] =>
    match photos with
    | [] => TgCall.sendMessage text
    | [p] => TgCall.sendPhoto p text
    | p :: rest =>
      TgCall.sendMediaGroup
        (⟨p, some text⟩ :: (rest.take 9).map (fun u => ⟨u, none⟩))

/-- Whether a call is a grouped-media send. -/
def TgCall.isMediaGroup : TgCall → Bool
  | TgCall.sendMediaGroup _ => true
  | _ => false

/-- The items of a grouped-media send (empty for the other call shapes). -/
def TgCall.groupItems : TgCall → List MediaItem
  | TgCall.sendMediaGroup l => l
  | _ => []

/-- Whether the call carries any media field; only the plain text
`send_message` shape carries none. -/
def TgCall.hasMedia : TgCall → Bool
  | TgCall.sendMessage _ => false
  | _ => true

/-- The observable result of one iteration of the per-chat loop of
`TelegramNotifier.send_message` for a single chat id. -/
structure TgTargetTrace where
  primaryCall : TgCall
  primaryAttempts : Nat
  primarySleeps : Nat
  resendCall : Option TgCall
  fallbackAttempts : Nat
  outcome : RetryResult
deriving DecidableEq

/-- One iteration of the per-chat loop of `TelegramNotifier.send_message`:
the primary `_send_message_to_single_chat` with the full envelope runs under
`_retry`; on `BadRequest` — and only on `BadRequest` — the `except` clause
logs and performs one resend of `_send_message_to_single_chat` with
`photo_url_list=None` and `video_url_list=None`, under a fresh `_retry` with
its own `tries=5`; faults of the resend (a second `BadRequest`, or
exhaustion) are caught by nothing in `send_message`.  `primary` and
`fallback` give the outcome of each underlying attempt of the two `_retry`
loops. -/
def tgDeliverTarget (text : String) (photos videos : List String)
    (primary fallback : Nat → AttemptRes) : TgTargetTrace :=
  match retryRun primary 0 5 with
  | (RetryResult.success, a, s) =>
    ⟨send_message_to_single_chat text photos videos, a, s, none, 0,
     RetryResult.success⟩
  | (RetryResult.exhausted, a, s) =>
    ⟨send_message_to_single_chat text photos videos, a, s, none, 0,
     RetryResult.exhausted⟩
  | (RetryResult.badRequest, a, s) =>
    let r2 := retryRun fallback 0 5
    ⟨send_message_to_single_chat text photos videos, a, s,
     some (send_message_to_single_chat text [] []), r2.2.1, r2.1⟩

/-- `TelegramNotifier.send_message`: iterate over `chat_id_list` in order; a
chat whose delivery completes (primary success, or `BadRequest` repaired by
a successful text-only resend) lets the loop continue; any other fault
propagates out of `send_message`, so the remaining chats are not attempted.
Returns the traces of the attempted chats in order, and whether
`send_message` returned normally.  `beh` gives each chat id its
(primary, fallback) attempt oracles. -/
def telegram_send_message (text : String) (photos videos : List String)
    (beh : Nat → (Nat → AttemptRes) × (Nat → AttemptRes)) :
    List Nat → List (Nat × TgTargetTrace) × Bool
  | [] => ([], true)
  | t :: rest =>
    let tr := tgDeliverTarget text photos videos (beh t).1 (beh t).2
    match tr.outcome with
    | RetryResult.success =>
      let r := telegram_send_message text photos videos beh rest
      ((t, tr) :: r.1, r.2)
    | _ => ([(t, tr)], false)

/-- The POST bodies `DiscordNotifier.send_message` issues for one webhook
url when no post faults: the text content, then each photo URL as its own
content post, then each video URL as its own content post. -/
def discord_target_posts (text : String) (photos videos : List String) :
    List String :=
  text :: (photos ++ videos)

/-- The per-target `try` block of `DiscordNotifier.send_message` and
`CqhttpNotifier.send_message`: the posts of one target run in order and the
first raising post aborts the remaining posts of THAT target only, the
fault being caught (and logged) by the per-target `except Exception`
clause.  `f` tells whether the i-th post of this target succeeds; returns
the attempted posts and whether all of them completed. -/
def runPosts (f : Nat → Bool) : Nat → List String → List String × Bool
  | _, [] => ([], true)
  | i, p :: rest =>
    if f i then
      let r := runPosts f (i + 1) rest
      (p :: r.1, r.2)
    else ([p], false)

/-- `DiscordNotifier.send_message`: every webhook url in the list is
attempted, whatever happened at the previous urls, and each url's outcome is
a function of its own post outcomes only. -/
def discord_send_message (beh : String → Nat → Bool) (text : String)
    (photos videos : List String) (urls : List String) :
    List (String × (List String × Bool)) :=
  urls.map (fun u => (u, runPosts (beh u) 0 (discord_target_posts text photos videos)))

/-- `CqhttpNotifier.send_message`: same per-url isolation as Discord, with
the cqhttp post bodies. -/
def cqhttp_send_message (beh : String → Nat → Bool) (text : String)
    (photos videos : List String) (urls : List String) :
    List (String × (List String × Bool)) :=
  urls.map (fun u => (u, runPosts (beh u) 0 (cqhttp_target_posts text photos videos)))

/-- C7 counterexample: for the envelope `{text := "hello",
photos := [http://x/1.jpg, http://x/2.jpg], targets := [7]}` the second and
third POSTs carry the ORIGINAL photo URLs inside the inline-media token; the
claim's expected stripped forms (`x/1.jpg`, `x/2.jpg`) do not occur, because
`_send_photo` never applies `_remove_http`. -/
theorem cqhttp_photo_posts_not_stripped :
    (cqhttp_target_posts "hello" ["http://x/1.jpg", "http://x/2.jpg"] []).get? 1 ≠
      some "[CQ:image,file=x/1.jpg]" ∧
    (cqhttp_target_posts "hello" ["http://x/1.jpg", "http://x/2.jpg"] []).get? 2 ≠
      some "[CQ:image,file=x/2.jpg]" := by
  constructor <;> decide

/-- C7 (amended): the envelope `{text := "hello",
photos := [http://x/1.jpg, http://x/2.jpg], targets := [7]}` produces exactly
three POSTs per target, in order: one with message "hello" (the text does go
through `_remove_http`, which leaves "hello" unchanged), then two
inline-media POSTs embedding the photo URLs verbatim, scheme prefix intact. -/
theorem cqhttp_hello_two_photos_posts :
    cqhttp_target_posts "hello" ["http://x/1.jpg", "http://x/2.jpg"] [] =
      ["hello", "[CQ:image,file=http://x/1.jpg]", "[CQ:image,file=http://x/2.jpg]"] := by
  decide

theorem retryRun_attempts_le (g : Nat → AttemptRes) (i fuel : Nat) :
    (retryRun g i fuel).2.1 ≤ fuel := by
  induction fuel generalizing i with
  | zero => simp [retryRun]
  | succ k ih =>
    cases hg : g i <;> simp [retryRun, hg]
    have := ih (i + 1)
    omega

theorem retryRun_exhausted_attempts (g : Nat → AttemptRes) (i fuel : Nat) :
    (retryRun g i fuel).1 = RetryResult.exhausted → (retryRun g i fuel).2.1 = fuel := by
  induction fuel generalizing i with
  | zero => simp [retryRun]
  | succ k ih =>
    cases hg : g i <;> simp [retryRun, hg]
    exact ih (i + 1)

/-- C4: `_retry` with its default bound of 5 tries and fixed delay.  A call
that raises a transient fault on attempts 1 and 2 and returns on attempt 3
succeeds with exactly 3 underlying attempts and exactly 2 fixed-length
sleeps; and for every attempt oracle, at most 5 underlying attempts are made
before `_retry` returns or surfaces a fault, exhaustion using exactly 5. -/
theorem telegram_retry_bounded (f g : Nat → AttemptRes)
    (h0 : f 0 = AttemptRes.transient) (h1 : f 1 = AttemptRes.transient)
    (h2 : f 2 = AttemptRes.ok) :
    retryRun f 0 5 = (RetryResult.success, 3, 2) ∧
    (retryRun g 0 5).2.1 ≤ 5 ∧
    ((retryRun g 0 5).1 = RetryResult.exhausted → (retryRun g 0 5).2.1 = 5) := by
  refine ⟨?_, retryRun_attempts_le g 0 5, retryRun_exhausted_attempts g 0 5⟩
  simp [retryRun, h0, h1, h2]

theorem telegram_retry_bounded_witness :
    retryRun (fun i => if i < 2 then AttemptRes.transient else AttemptRes.ok) 0 5 =
      (RetryResult.success, 3, 2) ∧
    (retryRun (fun _ => AttemptRes.transient) 0 5).2.1 ≤ 5 := by
  have h := telegram_retry_bounded
    (fun i => if i < 2 then AttemptRes.transient else AttemptRes.ok)
    (fun _ => AttemptRes.transient) rfl rfl rfl
  exact ⟨h.1, h.2.1⟩

/-- C9: shapes of the per-chat Telegram send.  Exactly one photo gives a
direct `send_photo` carrying the text as caption; two or more photos give
one grouped-media send whose items are the first 10 photos in order, whose
first item carries the caption and the rest none, hence at most 10 items; a
non-empty video list gives a direct `send_video` of the first video with the
text as caption. -/
theorem telegram_single_chat_shapes (text : String) (photos videos : List String) :
    (∀ p, photos = [p] → videos = [] →
      send_message_to_single_chat text photos videos = TgCall.sendPhoto p text) ∧
    (2 ≤ photos.length → videos = [] →
      (send_message_to_single_chat text photos videos).isMediaGroup = true ∧
      ((send_message_to_single_chat text photos videos).groupItems).map MediaItem.media =
        photos.take 10 ∧
      ((send_message_to_single_chat text photos videos).groupItems).length ≤ 10 ∧
      (((send_message_to_single_chat text photos videos).groupItems).head?).map
          MediaItem.caption = some (some text) ∧
      ∀ it ∈ ((send_message_to_single_chat text photos videos).groupItems).tail,
        it.caption = none) ∧
    (∀ v vs, videos = v :: vs →
      send_message_to_single_chat text photos videos = TgCall.sendVideo v text) := by
  refine ⟨?_, ?_, ?_⟩
  · rintro p rfl rfl
    rfl
  · intro h2 hv
    subst hv
    match photos, h2 with
    | p :: q :: rest, _ =>
      have hgi : (send_message_to_single_chat text (p :: q :: rest) []).groupItems =
          ⟨p, some text⟩ :: ((q :: rest).take 9).map
            (fun u => ({ media := u, caption := none } : MediaItem)) := rfl
      refine ⟨rfl, ?_, ?_, rfl, ?_⟩
      · rw [hgi, List.map_cons, List.map_map]
        show p :: List.map (fun u => u) (List.take 9 (q :: rest)) =
          List.take 10 (p :: q :: rest)
        rw [List.map_id']
        rfl
      · rw [hgi, List.length_cons, List.length_map]
        have := List.length_take_le 9 (q :: rest)
        omega
      · intro it hit
        rw [hgi, List.tail_cons] at hit
        obtain ⟨u, _, rfl⟩ := List.mem_map.mp hit
        rfl
  · rintro v vs rfl
    rfl

theorem telegram_single_chat_shapes_witness :
    send_message_to_single_chat "t" ["a"] [] = TgCall.sendPhoto "a" "t" ∧
    (send_message_to_single_chat "t" ["a", "b", "c"] []).isMediaGroup = true ∧
    ((send_message_to_single_chat "t" ["a", "b", "c"] []).groupItems).map
        MediaItem.media = ["a", "b", "c"] ∧
    send_message_to_single_chat "t" ["a"] ["v", "w"] = TgCall.sendVideo "v" "t" := by
  refine ⟨(telegram_single_chat_shapes "t" ["a"] []).1 "a" rfl rfl, ?_, ?_,
    (telegram_single_chat_shapes "t" ["a"] ["v", "w"]).2.2 "v" ["w"] rfl⟩
  · exact ((telegram_single_chat_shapes "t" ["a", "b", "c"] []).2.1
      (by decide) rfl).1
  · exact ((telegram_single_chat_shapes "t" ["a", "b", "c"] []).2.1
      (by decide) rfl).2.1

/-- C10: when an envelope has both a non-empty video list and a non-empty
photo list, the per-chat send is the single `send_video` of the FIRST video
with the text as its caption — no photo send, no grouped-media send, and no
separate text message occur, since this is the only underlying call. -/
theorem telegram_video_overrides_photos (text p v : String) (ps vs : List String) :
    send_message_to_single_chat text (p :: ps) (v :: vs) = TgCall.sendVideo v text ∧
    (send_message_to_single_chat text (p :: ps) (v :: vs)).isMediaGroup = false := by
  exact ⟨rfl, rfl⟩

/-- C2 counterexample: Telegram adapter, chats `[1, 2]`, every underlying
attempt for chat 1 raises a transient error, so its `_retry` exhausts and
raises `RuntimeError` — which the per-chat `except BadRequest` clause of
`send_message` does NOT catch.  The fault propagates and chat 2 is never
attempted, refuting per-target isolation for "every adapter". -/
theorem telegram_fanout_not_isolated_cex :
    ((telegram_send_message "t" [] []
        (fun _ => (fun _ => AttemptRes.transient, fun _ => AttemptRes.ok))
        [1, 2]).1.map Prod.fst) = [1] ∧
    ((telegram_send_message "t" [] []
        (fun _ => (fun _ => AttemptRes.transient, fun _ => AttemptRes.ok))
        [1, 2]).1.map Prod.fst) ≠ [1, 2] := by
  exact ⟨rfl, by decide⟩

/-- C2 (amended): per-target fault isolation holds unconditionally for the
Discord and Cqhttp adapters: every target in the list is attempted whatever
faults earlier targets hit, and each target's outcome is a function of its
own post outcomes only, the fault being logged and swallowed by the
per-target `except Exception` clause.  For the Telegram adapter isolation
holds only when every chat's delivery completes — primary success or a
`BadRequest` repaired by a successful text-only resend; any other fault
(retry exhaustion, or a failing resend) propagates out of `send_message`
and the remaining chats are not attempted. -/
theorem fanout_per_target_isolation (text : String) (photos videos : List String)
    (dbeh cbeh : String → Nat → Bool) (urls : List String)
    (beh : Nat → (Nat → AttemptRes) × (Nat → AttemptRes)) (chats : List Nat)
    (hiso : ∀ t, (tgDeliverTarget text photos videos (beh t).1 (beh t).2).outcome =
      RetryResult.success) :
    (discord_send_message dbeh text photos videos urls).map Prod.fst = urls ∧
    (∀ u ∈ urls, (u, runPosts (dbeh u) 0 (discord_target_posts text photos videos)) ∈
      discord_send_message dbeh text photos videos urls) ∧
    (cqhttp_send_message cbeh text photos videos urls).map Prod.fst = urls ∧
    (∀ u ∈ urls, (u, runPosts (cbeh u) 0 (cqhttp_target_posts text photos videos)) ∈
      cqhttp_send_message cbeh text photos videos urls) ∧
    (telegram_send_message text photos videos beh chats).1.map Prod.fst = chats := by
  refine ⟨?_, ?_, ?_, ?_, ?_⟩
  · rw [discord_send_message, List.map_map]
    exact List.map_id' urls
  · exact fun u hu => List.mem_map_of_mem _ hu
  · rw [cqhttp_send_message, List.map_map]
    exact List.map_id' urls
  · exact fun u hu => List.mem_map_of_mem _ hu
  · induction chats with
    | nil => rfl
    | cons t rest ih =>
      simp only [telegram_send_message, hiso t]
      simpa using ih

theorem fanout_per_target_isolation_witness :
    (discord_send_message (fun _ _ => true) "t" [] [] ["u"]).map Prod.fst = ["u"] ∧
    (cqhttp_send_message (fun _ _ => true) "t" [] [] ["u"]).map Prod.fst = ["u"] ∧
    (telegram_send_message "t" [] []
        (fun _ => (fun _ => AttemptRes.ok, fun _ => AttemptRes.ok))
        [1, 2]).1.map Prod.fst = [1, 2] := by
  have h := fanout_per_target_isolation "t" [] [] (fun _ _ => true)
    (fun _ _ => true) ["u"]
    (fun _ => (fun _ => AttemptRes.ok, fun _ => AttemptRes.ok)) [1, 2]
    (fun _ => rfl)
  exact ⟨h.1, h.2.2.1, h.2.2.2.2⟩

/-- C5 counterexample: chats `[1, 2]`; for chat 1 every underlying attempt
— of the primary send and of the text-only resend alike — raises
`BadRequest`.  The resend does occur and is text-only, but its own
`BadRequest` is caught by nothing in `send_message`, so chat 2 is never
attempted: the failing target is NOT abandoned "without affecting other
targets". -/
theorem telegram_fallback_fault_aborts_fanout_cex :
    (tgDeliverTarget "t" ["p"] []
        (fun _ => AttemptRes.badReq) (fun _ => AttemptRes.badReq)).resendCall =
      some (TgCall.sendMessage "t") ∧
    ((telegram_send_message "t" ["p"] []
        (fun _ => (fun _ => AttemptRes.badReq, fun _ => AttemptRes.badReq))
        [1, 2]).1.map Prod.fst) = [1] ∧
    ((telegram_send_message "t" ["p"] []
        (fun _ => (fun _ => AttemptRes.badReq, fun _ => AttemptRes.badReq))
        [1, 2]).1.map Prod.fst) ≠ [1, 2] := by
  exact ⟨rfl, rfl, by decide⟩

/-- C5 (amended): when the primary `_retry` of a chat surfaces
`BadRequest`, exactly one automatic resend happens for that same chat; its
call is the text-only `send_message` shape carrying no media field; it runs
under a fresh `_retry` whose budget is the full default 5 attempts — e.g.
it still succeeds after 4 transient faults of its own, however many
attempts the primary consumed.  But if the resend itself fails (another
`BadRequest`, or exhaustion of its 5 attempts), the fault propagates out of
`send_message` — it is logged by the queue worker, not handled per target —
and the remaining chats of the envelope are not attempted. -/
theorem telegram_badrequest_text_fallback (text : String)
    (photos videos : List String) (primary fallback : Nat → AttemptRes)
    (hp : (retryRun primary 0 5).1 = RetryResult.badRequest) :
    (tgDeliverTarget text photos videos primary fallback).resendCall =
      some (send_message_to_single_chat text [] []) ∧
    TgCall.hasMedia (send_message_to_single_chat text [] []) = false ∧
    (tgDeliverTarget text photos videos primary fallback).fallbackAttempts =
      (retryRun fallback 0 5).2.1 ∧
    ((∀ i, i < 4 → fallback i = AttemptRes.transient) →
      fallback 4 = AttemptRes.ok →
      (tgDeliverTarget text photos videos primary fallback).fallbackAttempts = 5 ∧
      (tgDeliverTarget text photos videos primary fallback).outcome =
        RetryResult.success) ∧
    ((retryRun fallback 0 5).1 ≠ RetryResult.success →
      ∀ (t : Nat) (rest : List Nat),
        (telegram_send_message text photos videos (fun _ => (primary, fallback))
          (t :: rest)).1.map Prod.fst = [t]) := by
  rcases hr : retryRun primary 0 5 with ⟨r, a, s⟩
  rw [hr] at hp
  simp only at hp
  subst hp
  have htd : tgDeliverTarget text photos videos primary fallback =
      ⟨send_message_to_single_chat text photos videos, a, s,
       some (send_message_to_single_chat text [] []),
       (retryRun fallback 0 5).2.1, (retryRun fallback 0 5).1⟩ := by
    rw [tgDeliverTarget, hr]
  refine ⟨by rw [htd], rfl, by rw [htd], ?_, ?_⟩
  · intro hi h4
    have hfb : retryRun fallback 0 5 = (RetryResult.success, 5, 4) := by
      simp [retryRun, hi 0 (by omega), hi 1 (by omega), hi 2 (by omega),
        hi 3 (by omega), h4]
    rw [htd, hfb]
    exact ⟨rfl, rfl⟩
  · intro hnf t rest
    simp only [telegram_send_message, htd]
    rcases ho : (retryRun fallback 0 5).1 with _ | _ | _
    · exact absurd ho hnf
    · rfl
    · rfl

theorem telegram_badrequest_text_fallback_witness :
    (tgDeliverTarget "t" ["p"] [] (fun _ => AttemptRes.badReq)
        (fun i => if i < 4 then AttemptRes.transient else AttemptRes.ok)).resendCall =
      some (TgCall.sendMessage "t") ∧
    TgCall.hasMedia (TgCall.sendMessage "t") = false ∧
    (tgDeliverTarget "t" ["p"] [] (fun _ => AttemptRes.badReq)
        (fun i => if i < 4 then AttemptRes.transient else AttemptRes.ok)).fallbackAttempts = 5 ∧
    (telegram_send_message "t" ["p"] []
        (fun _ => (fun _ => AttemptRes.badReq, fun _ => AttemptRes.badReq))
        [3, 4]).1.map Prod.fst = [3] := by
  have h1 := telegram_badrequest_text_fallback "t" ["p"] []
    (fun _ => AttemptRes.badReq)
    (fun i => if i < 4 then AttemptRes.transient else AttemptRes.ok) rfl
  have h2 := telegram_badrequest_text_fallback "t" ["p"] []
    (fun _ => AttemptRes.badReq) (fun _ => AttemptRes.badReq) rfl
  refine ⟨h1.1, h1.2.1, ?_, ?_⟩
  · exact (h1.2.2.2.1 (fun i hi => by interval_cases i <;> rfl) rfl).1
  · exact h2.2.2.2.2 (by decide) 3 [4]

/-- One inbound update as consumed by `TelegramNotifier.confirm`: presence
of `update.message`, the message timestamp `update.message.date`, the origin
chat id `update.message.chat.id`, and the reply text. -/
structure TgUpdate where
  hasMessage : Bool
  date : Int
  chatId : Int
  text : String
deriving DecidableEq

/-- Python whitespace as recognised by `str.strip()` (the ASCII whitespace
characters; the replies of the protocol are ASCII). -/
def pyIsSpace (c : Char) : Bool :=
  c = ' ' || c = '\t' || c = '\n' || c = '\r' || c = '\x0b' || c = '\x0c'

/-- Python `str.strip()`: remove leading and trailing whitespace. -/
def pyStrip (s : String) : String :=
  String.mk (((s.data.dropWhile pyIsSpace).reverse.dropWhile pyIsSpace).reverse)

/-- Python `str.upper()` on the ASCII range (`Char.toUpper` uppercases
exactly ASCII letters), which is all the Y/N protocol compares against. -/
def pyUpper (s : String) : String :=
  String.mk (s.data.map Char.toUpper)

/-- `update.message.text.strip().upper()` in `TelegramNotifier.confirm`. -/
def normalizeReply (s : String) : String := pyUpper (pyStrip s)

/-- The body of `confirm`'s `for update in updates` loop for one update:
`none` means the update is skipped, `some b` resolves the call.  The guards
in source order: missing `update.message`; `update.message.date <
sending_time`; origin chat not in `message.chat_id_list`; then the
normalized text against `"Y"` and `"N"`. -/
def confirm_step (sending_time : Int) (chat_id_list : List Int) (u : TgUpdate) :
    Option Bool :=
  if !u.hasMessage then none
  else if u.date < sending_time then none
  else if !(chat_id_list.contains u.chatId) then none
  else if normalizeReply u.text = "Y" then some true
  else if normalizeReply u.text = "N" then some false
  else none

/-- One polling round of `confirm` over a batch of new updates: the first
update that resolves wins; a batch scanning to `none` sends `confirm` into
`asyncio.sleep(10)` and another poll. -/
def confirm_scan (sending_time : Int) (chat_id_list : List Int) :
    List TgUpdate → Option Bool
  | [] => none
  | u :: rest =>
    match confirm_step sending_time chat_id_list u with
    | some b => some b
    | none => confirm_scan sending_time chat_id_list rest

theorem confirm_scan_skips (sending_time : Int) (chat_id_list : List Int)
    (us : List TgUpdate)
    (h : ∀ v ∈ us, chat_id_list.contains v.chatId = false) :
    confirm_scan sending_time chat_id_list us = none := by
  induction us with
  | nil => rfl
  | cons v vs ih =>
    have hv := h v (List.mem_cons_self v vs)
    have hv2 : v.chatId ∉ chat_id_list := by simpa using hv
    have hstep : confirm_step sending_time chat_id_list v = none := by
      unfold confirm_step
      cases hm : v.hasMessage <;> by_cases hd : v.date < sending_time <;>
        simp [hv2, hd]
    rw [confirm_scan, hstep]
    exact ih (fun w hw => h w (List.mem_cons_of_mem v hw))

/-- C6: the reply filtering of `confirm`.  A reply whose timestamp is
strictly before the send timestamp is skipped; a reply from a chat not in
the target list is skipped, so every polling round made up of such replies
scans to `none` and the call keeps polling indefinitely; a reply passing
both filters resolves the call to `true` when its text strips and
upper-cases to `"Y"`, to `false` when it does so to `"N"` (any case, any
surrounding whitespace), and any other text keeps the call polling. -/
theorem confirm_reply_filtering (sending_time : Int) (chat_id_list : List Int)
    (u : TgUpdate) (us : List TgUpdate) :
    (u.date < sending_time → confirm_step sending_time chat_id_list u = none) ∧
    (chat_id_list.contains u.chatId = false →
      confirm_step sending_time chat_id_list u = none) ∧
    ((∀ v ∈ us, chat_id_list.contains v.chatId = false) →
      confirm_scan sending_time chat_id_list us = none) ∧
    (u.hasMessage = true → ¬(u.date < sending_time) →
      chat_id_list.contains u.chatId = true →
      (normalizeReply u.text = "Y" →
        confirm_step sending_time chat_id_list u = some true) ∧
      (normalizeReply u.text = "N" →
        confirm_step sending_time chat_id_list u = some false) ∧
      (normalizeReply u.text ≠ "Y" → normalizeReply u.text ≠ "N" →
        confirm_step sending_time chat_id_list u = none)) := by
  refine ⟨?_, ?_, confirm_scan_skips sending_time chat_id_list us, ?_⟩
  · intro h
    unfold confirm_step
    cases hm : u.hasMessage <;> simp [h]
  · intro h
    have h2 : u.chatId ∉ chat_id_list := by simpa using h
    unfold confirm_step
    cases hm : u.hasMessage <;> by_cases hd : u.date < sending_time <;>
      simp [h2, hd]
  · intro hm hd hc
    have hc2 : u.chatId ∈ chat_id_list := by simpa using hc
    refine ⟨?_, ?_, ?_⟩
    · intro hy
      simp [confirm_step, hm, hd, hc2, hy]
    · intro hn
      have hy : ¬(normalizeReply u.text = "Y") := by
        rw [hn]
        decide
      simp [confirm_step, hm, hd, hc2, hy, hn]
    · intro hy hn
      simp [confirm_step, hm, hd, hc2, hy, hn]

theorem confirm_reply_filtering_witness :
    confirm_step 5 [7] ⟨true, 2, 7, "y"⟩ = none ∧
    confirm_step 5 [7] ⟨true, 9, 8, "y"⟩ = none ∧
    confirm_scan 5 [7] [⟨true, 9, 8, "Y"⟩, ⟨true, 9, 9, "N"⟩] = none ∧
    confirm_step 5 [7] ⟨true, 5, 7, " y "⟩ = some true ∧
    confirm_step 5 [7] ⟨true, 6, 7, " n "⟩ = some false ∧
    confirm_step 5 [7] ⟨true, 6, 7, "maybe"⟩ = none := by
  refine ⟨(confirm_reply_filtering 5 [7] ⟨true, 2, 7, "y"⟩ []).1 (by decide),
    (confirm_reply_filtering 5 [7] ⟨true, 9, 8, "y"⟩ []).2.1 (by decide),
    (confirm_reply_filtering 5 [7]  ⟨true, 9, 8, "y"⟩
      [⟨true, 9, 8, "Y"⟩, ⟨true, 9, 9, "N"⟩]).2.2.1 (by decide),
    ((confirm_reply_filtering 5 [7] ⟨true, 5, 7, " y "⟩ []).2.2.2
      rfl (by decide) (by decide)).1 (by decide),
    ((confirm_reply_filtering 5 [7] ⟨true, 6, 7, " n "⟩ []).2.2.2
      rfl (by decide) (by decide)).2.1 (by decide),
    ((confirm_reply_filtering 5 [7] ⟨true, 6, 7, "maybe"⟩ []).2.2.2
      rfl (by decide) (by decide)).2.2 (by decide) (by decide)⟩
